import Mathlib

/-!
Verification model of the FutureFit-quest event-sourcing core.

Each definition is a shallow embedding of one function of the repository:

* `ProgressV1` — `app/src/engine/ProgressService.js` (the cached-incremental
  revision stored at that path): `calculateUserState`, `_applyEventToState`,
  `_isCacheFresh`, `_getNewEvents`.
* `ProgressV2` — the later revision of the same file (header comment
  `// app/src/engine/ProgressService.js`, shipped in the repository as an
  unnamed source part): always a full replay, derives `level` and
  `xpToNextLevel`, reads `payload.scoreAwarded`.
* `SkillTree` — `app/src/engine/SkillTree.js` (`RESKILLING_TREE`, `getNode`,
  `getQuestion`, `arePrerequisitesMet`, `getUnlockedNodes`).
* `Policy` — `app/src/engine/PolicyEngine.js` (`canAccessNode`,
  `getVisualState`).
* `Storage` — `app/src/engine/SafeLocalStorage.js` (`saveEvent`,
  `getAllEvents`, `_createBackup`, `_restoreFromBackup`, `_calculateChecksum`).
* `EventMgr` — `app/src/engine/EventManager.js` (`recordEvent`).
* `Session` — the `SessionManager` class (`handleLessonCompletion`,
  `_validateAnswer`, `_getCompletedNodes`, `_getNextNode`).

Host primitives are modelled explicitly:

* JavaScript strict equality `===` between a string and a number is `false`
  without coercion (`jsStrictEq`).
* `x || d` on a possibly-absent number yields `d` also when `x` is `0`
  (`jsOrNat`, `jsOrQ`).
* `localStorage` stores strings; `setItem` coerces a number argument with
  `String(...)`; a quota error makes `setItem` throw.  Reads never throw.
* `Date.now()`/`Math.random()` id generation and event timestamps are passed
  in as explicit parameters; ISO timestamp strings are order-isomorphic to
  naturals and modelled as `Nat`.
* `JSON.stringify` of the event batch is modelled by the deterministic
  serialization `serializeBatch`; `JSON.parse` of a value the store itself
  wrote is its inverse, so the batch slots hold the parsed lists directly.
* JavaScript `Array#sort` is stable (ES2019); a stable sort's output is
  uniquely determined by the comparator and input order, so it is modelled by
  the stable `List.insertionSort`.
-/

/-- A JavaScript primitive value: a string or a number.  Numbers are modelled
as rationals (enough for the integer and decimal literals the program uses). -/
inductive JSVal where
  | str (s : String)
  | num (q : ℚ)
deriving DecidableEq, Repr

/-- JavaScript strict equality `===` on primitives: values of different types
are never equal, no coercion happens. -/
def jsStrictEq : JSVal → JSVal → Bool
  | .str a, .str b => a == b
  | .num a, .num b => a == b
  | _, _ => false

/-- JavaScript `x || d` where `x` is a possibly-absent number: `undefined` and
the falsy number `0` both yield the default. -/
def jsOrNat (v : Option Nat) (d : Nat) : Nat :=
  match v with
  | some n => if n == 0 then d else n
  | none => d

/-- JavaScript `x || d` for a possibly-absent rational (used for
`question.tolerance || 0.01`). -/
def jsOrQ (v : Option ℚ) (d : ℚ) : ℚ :=
  match v with
  | some q => if q == 0 then d else q
  | none => d

/-- `parseFloat` as used on answers: a number parses to itself; a string of
decimal digits parses to the corresponding natural (fractional literals do not
occur among the program's answers); anything else is NaN, modelled as `none`
(every NaN comparison below is `false`). -/
def parseFloatQ : JSVal → Option ℚ
  | .num q => some q
  | .str s => (s.toNat?).map (fun n => (n : ℚ))

/-- The type-specific payload of an event.  JavaScript objects are open
records; the model carries every payload property any component reads or
writes, with `Option` for properties a producer may omit. -/
structure Payload where
  nodeId : String := ""
  isCorrect : Bool := false
  /-- read by the V1 deriver as `payload.xpEarned || 10` -/
  xpEarned : Option Nat := none
  /-- written by the orchestrator, read by the V2 deriver as
  `payload.scoreAwarded || 10` -/
  scoreAwarded : Option Nat := none
  submissionUuid : String := ""
  questionId : String := ""
  userAnswer : JSVal := .str ""
  timeSpentMs : Nat := 0
  hintsUsed : Nat := 0
  misconceptionCode : Option String := none
deriving DecidableEq, Repr

/-- A log event.  `id` is stamped by the Log Store (empty until then);
`meta` (user agent, version) is constant provenance data no component reads
back and is omitted. -/
structure Event where
  id : String := ""
  userId : String := ""
  type : String := ""
  payload : Payload := {}
  timestamp : Nat := 0
deriving DecidableEq, Repr

/-- The derived user state of the V1 deriver.  The JavaScript literal in
`calculateUserState` has exactly the properties `xp`, `completedNodes`,
`streak`; `attemptedNodes` is the property `getVisualState` later reads with
`userState.attemptedNodes || []` — no code ever assigns it, so it is carried
here (initially `[]`) to make statements about the attempted set expressible,
and the deriver never touches it. -/
structure UserState where
  xp : Nat := 0
  completedNodes : List String := []
  streak : Nat := 0
  attemptedNodes : List String := []
deriving DecidableEq, Repr

/-- Stable sort of events by the comparator
`(a, b) => new Date(a.timestamp) - new Date(b.timestamp)`. -/
def sortByTimestamp (l : List Event) : List Event :=
  l.insertionSort (fun a b => a.timestamp ≤ b.timestamp)

namespace ProgressV1

/-- `_applyEventToState` of `app/src/engine/ProgressService.js`: the switch on
`event.type` with the `QUIZ_ATTEMPT` and `VIDEO_COMPLETE` cases. -/
def applyEventToState (state : UserState) (event : Event) : UserState :=
  if event.type == "QUIZ_ATTEMPT" then
    if event.payload.isCorrect then
      let state := { state with
        xp := state.xp + jsOrNat event.payload.xpEarned 10,
        streak := state.streak + 1 }
      if state.completedNodes.contains event.payload.nodeId then state
      else { state with completedNodes := state.completedNodes ++ [event.payload.nodeId] }
    else
      { state with streak := 0 }
  else if event.type == "VIDEO_COMPLETE" then
    let state := { state with xp := state.xp + 5 }
    if state.completedNodes.contains event.payload.nodeId then state
    else { state with completedNodes := state.completedNodes ++ [event.payload.nodeId] }
  else
    state

/-- The blank slate `{ xp: 0, completedNodes: [], streak: 0 }`. -/
def initialState : UserState := {}

/-- The mutable instance fields of the `ProgressService` class:
`cachedState` and `cachedVersion` (both `null` on construction).  The cached
state object also carries a constant `version` tag, which no consumer reads. -/
structure Service where
  cachedState : Option UserState := none
  cachedVersion : Option String := none
deriving DecidableEq, Repr

/-- `eventHistory[eventHistory.length - 1]?.id || null`. -/
def lastEventId (h : List Event) : Option String :=
  (h.getLast?).map (·.id)

/-- `_isCacheFresh`: `this.cachedVersion === eventHistory[len-1]?.id`.
JavaScript `null === undefined` is `false`, so the comparison is `true` only
when both sides are present and equal. -/
def isCacheFresh (ps : Service) (h : List Event) : Bool :=
  match ps.cachedVersion, lastEventId h with
  | some a, some b => a == b
  | _, _ => false

/-- `_getNewEvents`: everything after the cached high-water mark, the full
history when there is no mark or the mark is not found. -/
def getNewEvents (ps : Service) (h : List Event) : List Event :=
  match ps.cachedVersion with
  | none => h
  | some v =>
    if h.length == 0 then h
    else
      match h.findIdx? (fun e => e.id == v) with
      | none => h
      | some i => h.drop (i + 1)

/-- `calculateUserState` of the cached-incremental revision: return the cache
when fresh; otherwise start from the blank slate, fold only the new events
(sorted by timestamp), and cache the result keyed by the last event id.
Returns the state together with the updated instance. -/
def calculateUserState (ps : Service) (h : List Event) : UserState × Service :=
  match ps.cachedState with
  | some cached =>
    if isCacheFresh ps h then (cached, ps)
    else
      let sorted := sortByTimestamp (getNewEvents ps h)
      let state := sorted.foldl applyEventToState initialState
      (state, { cachedState := some state, cachedVersion := lastEventId h })
  | none =>
    let sorted := sortByTimestamp (getNewEvents ps h)
    let state := sorted.foldl applyEventToState initialState
    (state, { cachedState := some state, cachedVersion := lastEventId h })

end ProgressV1

namespace ProgressV2

/-- The derived user state of the later `ProgressService.js` revision: the
initial literal has `xp`, `completedNodes`, `streak`, `level`; the function
assigns `level` and `xpToNextLevel` before returning (the initializer value of
`xpToNextLevel` is irrelevant — it is always overwritten). -/
structure UserState2 where
  xp : Nat := 0
  completedNodes : List String := []
  streak : Nat := 0
  level : Nat := 1
  xpToNextLevel : Nat := 100
deriving DecidableEq, Repr

/-- `_applyEventToState` of the later revision: identical rules, except the
correct-quiz branch reads `payload.scoreAwarded || 10`. -/
def applyEventToState (state : UserState2) (event : Event) : UserState2 :=
  if event.type == "QUIZ_ATTEMPT" then
    if event.payload.isCorrect then
      let state := { state with
        xp := state.xp + jsOrNat event.payload.scoreAwarded 10,
        streak := state.streak + 1 }
      if state.completedNodes.contains event.payload.nodeId then state
      else { state with completedNodes := state.completedNodes ++ [event.payload.nodeId] }
    else
      { state with streak := 0 }
  else if event.type == "VIDEO_COMPLETE" then
    let state := { state with xp := state.xp + 5 }
    if state.completedNodes.contains event.payload.nodeId then state
    else { state with completedNodes := state.completedNodes ++ [event.payload.nodeId] }
  else
    state

/-- `calculateUserState` of the later revision: replay all events from the
beginning (a copy of the history, sorted by timestamp), then derive
`level = Math.floor(xp / 100) + 1` and `xpToNextLevel = 100 - (xp % 100)`. -/
def calculateUserState (h : List Event) : UserState2 :=
  let state := (sortByTimestamp h).foldl applyEventToState {}
  { state with
    level := state.xp / 100 + 1,
    xpToNextLevel := 100 - state.xp % 100 }

end ProgressV2

/-- Question metadata of a skill node (`question` in `SkillTree.js`):
`questionType`, `correctAnswer`, and the optional `tolerance` (numeric) and
`caseSensitive` (text; `question.caseSensitive || false`) fields.  The
`prompt` and `options` texts are presentation data no validation reads. -/
structure Question where
  questionType : String
  correctAnswer : JSVal
  tolerance : Option ℚ := none
  caseSensitive : Bool := false
deriving DecidableEq, Repr

/-- A vertex of the content graph (`SkillTree.js` node): `id`,
`prerequisites`, `hasQuestion` and the question metadata.  `title`, `type`,
`duration`, `videoUrl`, `simulationType` are presentation data nothing in the
engine layer reads. -/
structure SkillNode where
  id : String
  prerequisites : List String
  hasQuestion : Bool := false
  question : Option Question := none
deriving DecidableEq, Repr

/-- `RESKILLING_TREE` of `app/src/engine/SkillTree.js`: the four modules with
their prerequisite chain and question metadata. -/
def RESKILLING_TREE : List SkillNode :=
  [ { id := "module_1_intro", prerequisites := [] },
    { id := "module_1_quiz", prerequisites := ["module_1_intro"],
      hasQuestion := true,
      question := some { questionType := "multiple_choice", correctAnswer := .str "B" } },
    { id := "module_2_excel", prerequisites := ["module_1_quiz"],
      hasQuestion := true,
      question := some { questionType := "numeric", correctAnswer := .num 30,
                         tolerance := some (1 / 100) } },
    { id := "module_3_python", prerequisites := ["module_2_excel"],
      hasQuestion := true,
      question := some { questionType := "text", correctAnswer := .str "def",
                         caseSensitive := true } } ]

/-- `getNode`: `RESKILLING_TREE.find(node => node.id === nodeId) || null`. -/
def getNode (nodeId : String) : Option SkillNode :=
  RESKILLING_TREE.find? (fun n => n.id == nodeId)

/-- `getQuestion`: `null` when the node is absent or has no question. -/
def getQuestion (nodeId : String) : Option Question :=
  match getNode nodeId with
  | none => none
  | some n => if n.hasQuestion then n.question else none

/-- `arePrerequisitesMet`: `false` for an absent node, otherwise every
prerequisite id is in the completed list. -/
def arePrerequisitesMet (nodeId : String) (completedNodeIds : List String) : Bool :=
  match getNode nodeId with
  | none => false
  | some n => n.prerequisites.all (fun p => completedNodeIds.contains p)

/-- `getUnlockedNodes`: nodes not yet completed whose prerequisites are met. -/
def getUnlockedNodes (completedNodeIds : List String) : List SkillNode :=
  RESKILLING_TREE.filter (fun n =>
    !completedNodeIds.contains n.id && arePrerequisitesMet n.id completedNodeIds)

/-- The `{ allowed, reason }` object `canAccessNode` returns; `reason` is one
of the code's literal strings. -/
structure AccessDecision where
  allowed : Bool
  reason : String
deriving DecidableEq, Repr

namespace Policy

/-- `canAccessNode` of `app/src/engine/PolicyEngine.js`.  `isDeveloper` is the
instance flag set by `configure`; the engine's tree is `RESKILLING_TREE`. -/
def canAccessNode (isDeveloper : Bool) (nodeId : String) (userState : UserState) :
    AccessDecision :=
  if isDeveloper then { allowed := true, reason := "DEV_OVERRIDE" }
  else
    match RESKILLING_TREE.find? (fun n => n.id == nodeId) with
    | none => { allowed := false, reason := "NODE_NOT_FOUND" }
    | some targetNode =>
      if targetNode.prerequisites.all (fun req => userState.completedNodes.contains req) then
        { allowed := true, reason := "PREREQS_MET" }
      else
        { allowed := false, reason := "LOCKED_PREREQ_MISSING" }

/-- `getVisualState` of `app/src/engine/PolicyEngine.js`: one of the five
visual-state strings.  `completed` and `attempted` read the state's properties
with a `|| []` default, which the total list fields already model. -/
def getVisualState (nodeId : String) (userState : UserState) : String :=
  let completed := userState.completedNodes
  let attempted := userState.attemptedNodes
  if completed.contains nodeId then "COMPLETED"
  else
    match RESKILLING_TREE.find? (fun n => n.id == nodeId) with
    | none => "LOCKED_FAR"
    | some targetNode =>
      let unmetPrereqs := targetNode.prerequisites.filter (fun req => !completed.contains req)
      if unmetPrereqs.length == 0 then
        if attempted.contains nodeId then "IN_PROGRESS" else "UNLOCKED_NEW"
      else if unmetPrereqs.length == 1 then "LOCKED_NEAR"
      else "LOCKED_FAR"

end Policy

namespace Storage

/-- The five `localStorage` keys `SafeLocalStorage` uses under its prefix
(`_events`, `_checksum`, `_backup`, `_backup_checksum`, `_temp`).  Batch slots
hold the parsed event list (`JSON.parse` of what the store itself serialized);
the checksum slots hold the stored string. -/
structure Slots where
  events : Option (List Event) := none
  checksum : Option String := none
  backup : Option (List Event) := none
  backupChecksum : Option String := none
  temp : Option (List Event) := none
deriving DecidableEq, Repr

/-- One `localStorage.setItem` call under a fault oracle: the head of `fails`
says whether this call throws (quota exhausted); an exhausted oracle means
success.  Returns the success flag, the store (unchanged on a throw), and the
remaining oracle. -/
def setItemF (store : Slots) (fails : List Bool) (write : Slots → Slots) :
    Bool × Slots × List Bool :=
  match fails with
  | [] => (true, write store, [])
  | b :: rest => if b then (false, store, rest) else (true, write store, rest)

/-- `_loadRawData`: the parsed permanent batch, `[]` when the slot is empty. -/
def loadRawData (store : Slots) : List Event :=
  store.events.getD []

/-- Serialization of one event for the checksum (models the deterministic
`JSON.stringify` text; the exact characters are immaterial, only that equal
batches serialize equally and the hash runs over the serialized form). -/
def serializeEvent (e : Event) : String :=
  e.id ++ ";" ++ e.userId ++ ";" ++ e.type ++ ";" ++ toString e.timestamp ++ ";" ++
  e.payload.nodeId ++ ";" ++ toString e.payload.isCorrect ++ ";" ++
  toString e.payload.timeSpentMs ++ ";" ++ toString e.payload.hintsUsed ++ ";" ++
  e.payload.submissionUuid

/-- Serialization of the whole batch. -/
def serializeBatch (l : List Event) : String :=
  "[" ++ String.join ((l.map serializeEvent).intersperse ",") ++ "]"

/-- Decimal digits of a natural, most significant first; the fuel bounds the
digit count (ten digits cover every unsigned 32-bit value). -/
def natDigits : Nat → Nat → List Char
  | 0, _ => []
  | fuel + 1, n =>
    if n < 10 then [Char.ofNat (48 + n)]
    else natDigits fuel (n / 10) ++ [Char.ofNat (48 + n % 10)]

/-- JavaScript `String(n)` for an unsigned 32-bit number (the coercion
`setItem` applies to the numeric checksum). -/
def natToString (n : Nat) : String :=
  ⟨natDigits 10 n⟩

/-- `_calculateChecksum`: the DJB2 rolling hash of the serialized batch,
`hash = ((hash << 5) + hash) + c` per UTF-16 code unit, returned as an
unsigned 32-bit number via `>>> 0`.  JavaScript's `ToInt32` coercion at the
shift and the final `ToUint32` are both congruences modulo `2^32` and every
intermediate stays below `2^53`, so the result equals the fold modulo
`2^32`. -/
def calculateChecksum (data : List Event) : Nat :=
  (serializeBatch data).data.foldl (fun h c => (h * 33 + c.toNat) % 4294967296) 5381

/-- `_createBackup`: when both the permanent batch and its checksum are
present (non-null, and the stored strings are never empty), copy them into the
backup pair.  These two `setItem` calls happen outside any `try`, so a quota
throw propagates to the caller (`.error`). -/
def createBackup (store : Slots) (fails : List Bool) :
    Except String Unit × Slots × List Bool :=
  match store.events, store.checksum with
  | some currentData, some currentChecksum =>
    let (ok1, s1, f1) := setItemF store fails (fun st => { st with backup := some currentData })
    if ok1 then
      let (ok2, s2, f2) := setItemF s1 f1
        (fun st => { st with backupChecksum := some currentChecksum })
      if ok2 then (.ok (), s2, f2) else (.error "QuotaExceededError", s2, f2)
    else (.error "QuotaExceededError", s1, f1)
  | _, _ => (.ok (), store, fails)

/-- `_restoreFromBackup`: when the backup pair is present, copy it over the
permanent batch and checksum and return `true`; otherwise return `false`.
The two `setItem` calls can throw (`.error`), which propagates. -/
def restoreFromBackup (store : Slots) (fails : List Bool) :
    Except String Bool × Slots × List Bool :=
  match store.backup, store.backupChecksum with
  | some backup, some backupChecksum =>
    let (ok1, s1, f1) := setItemF store fails (fun st => { st with events := some backup })
    if ok1 then
      let (ok2, s2, f2) := setItemF s1 f1 (fun st => { st with checksum := some backupChecksum })
      if ok2 then (.ok true, s2, f2) else (.error "QuotaExceededError", s2, f2)
    else (.error "QuotaExceededError", s1, f1)
  | _, _ => (.ok false, store, fails)

/-- `saveEvent` of `app/src/engine/SafeLocalStorage.js`.  The monotonic id
(`Date.now()` plus random suffix) is host-generated and passed in as
`eventId`.  Steps: stamp the event, append to the loaded batch, compute the
checksum (a number, coerced to its decimal string by `setItem`), snapshot the
backup, then the transactional write (temp, checksum, events, clear temp)
inside `try`; the `catch` restores from backup and returns `null`
(`.ok none`).  Throws escaping `_createBackup` or `_restoreFromBackup`
propagate.  The instance field `lastProcessedId` is write-only cache data no
modelled reader consumes and is omitted. -/
def saveEvent (store : Slots) (fails : List Bool) (event : Event) (eventId : String) :
    Except String (Option String) × Slots × List Bool :=
  let stampedEvent := { event with id := eventId }
  let batch := loadRawData store ++ [stampedEvent]
  let newChecksum := natToString (calculateChecksum batch)
  match createBackup store fails with
  | (.error e, s, f) => (.error e, s, f)
  | (.ok _, s0, f0) =>
    let recover := fun (s : Slots) (f : List Bool) =>
      match restoreFromBackup s f with
      | (.error e, s', f') => ((.error e : Except String (Option String)), s', f')
      | (.ok _, s', f') => (.ok none, s', f')
    let (ok1, s1, f1) := setItemF s0 f0 (fun st => { st with temp := some batch })
    if ok1 then
      let (ok2, s2, f2) := setItemF s1 f1 (fun st => { st with checksum := some newChecksum })
      if ok2 then
        let (ok3, s3, f3) := setItemF s2 f2 (fun st => { st with events := some batch })
        if ok3 then (.ok (some eventId), { s3 with temp := none }, f3)
        else recover s3 f3
      else recover s2 f2
    else recover s1 f1

/-- `getAllEvents` of `app/src/engine/SafeLocalStorage.js`: load the batch,
recompute the checksum, and test
`storedChecksum && storedChecksum !== calculatedChecksum`.  The stored
checksum is a string read from `localStorage` while the recomputed one is a
number, and strict `!==` between a string and a number holds regardless of
their digits, so the branch is taken whenever a checksum is stored.  On the
corruption branch: one restore attempt; on success return the freshly loaded
(restored) batch, otherwise throw `CORRUPTION_NO_BACKUP`. -/
def getAllEvents (store : Slots) (fails : List Bool) :
    Except String (List Event) × Slots × List Bool :=
  let rawData := loadRawData store
  let calculatedChecksum := calculateChecksum rawData
  let mismatch :=
    match store.checksum with
    | none => false
    | some storedChecksum => !(jsStrictEq (.str storedChecksum) (.num calculatedChecksum))
  if mismatch then
    match restoreFromBackup store fails with
    | (.error e, s', f') => (.error e, s', f')
    | (.ok restored, s', f') =>
      if restored then (.ok (loadRawData s'), s', f')
      else (.error "CORRUPTION_NO_BACKUP: Critical failure", s', f')
  else
    (.ok rawData, store, fails)

end Storage

namespace EventMgr

/-- `recordEvent` of `app/src/engine/EventManager.js`: build the canonical
event (timestamp and provenance metadata added; the ISO timestamp is passed in
as `timestamp`), reject a missing `userId` or `type` by returning `null`
without saving, otherwise return whatever `storage.saveEvent` returns. -/
def recordEvent (store : Storage.Slots) (fails : List Bool)
    (userId ty : String) (payload : Payload) (timestamp : Nat) (eventId : String) :
    Except String (Option String) × Storage.Slots × List Bool :=
  if userId == "" || ty == "" then (.ok none, store, fails)
  else
    Storage.saveEvent store fails
      { userId := userId, type := ty, payload := payload, timestamp := timestamp }
      eventId

/-- `getUserHistory`: `getAllEvents` filtered to one user. -/
def getUserHistory (store : Storage.Slots) (fails : List Bool) (userId : String) :
    Except String (List Event) × Storage.Slots × List Bool :=
  match Storage.getAllEvents store fails with
  | (.error e, s', f') => (.error e, s', f')
  | (.ok allEvents, s', f') => (.ok (allEvents.filter (fun e => e.userId == userId)), s', f')

end EventMgr

namespace Session

/-- The `attemptData` object the UI supplies. -/
structure AttemptData where
  submissionUuid : String
  userAnswer : JSVal
  timeSpentMs : Nat := 0
  hintsUsed : Nat := 0
deriving DecidableEq, Repr

/-- The object `_validateAnswer` returns. -/
structure Assessment where
  isCorrect : Bool
  scoreAwarded : Nat
  message : String
  misconceptionCode : Option String := none
deriving DecidableEq, Repr

/-- `_validateAnswer` of the `SessionManager` class: look up the question
(throwing when the node has none), branch on `questionType`
(`===` compare for multiple choice; tolerance compare on `parseFloat`-ed
values for numeric; trim/lower-case compare for text, where calling `trim` on
a non-string throws a `TypeError`), throw on an unknown type, then apply the
hint penalty `max(10 - hintsUsed * 2, 1)` for correct answers and `0`
otherwise. -/
def validateAnswer (nodeId : String) (attemptData : AttemptData) :
    Except String Assessment :=
  match getQuestion nodeId with
  | none => .error ("Node " ++ nodeId ++ " does not have a question")
  | some question =>
    let checked : Except String Bool :=
      if question.questionType == "multiple_choice" then
        .ok (jsStrictEq attemptData.userAnswer question.correctAnswer)
      else if question.questionType == "numeric" then
        .ok (match parseFloatQ attemptData.userAnswer, parseFloatQ question.correctAnswer with
             | some a, some b => decide (|a - b| < jsOrQ question.tolerance (1 / 100))
             | _, _ => false)
      else if question.questionType == "text" then
        match attemptData.userAnswer, question.correctAnswer with
        | .str ua, .str ca =>
          .ok (if question.caseSensitive then ua.trim == ca.trim
               else ua.trim.toLower == ca.toLower)
        | _, _ => .error "TypeError: trim is not a function"
      else
        .error ("Unknown question type: " ++ question.questionType)
    match checked with
    | .error e => .error e
    | .ok isCorrect =>
      .ok { isCorrect := isCorrect,
            scoreAwarded := if isCorrect then max (10 - attemptData.hintsUsed * 2) 1 else 0,
            message := if isCorrect then "Correct! Well done."
                       else "Not quite right. Try reviewing the lesson.",
            misconceptionCode := none }

/-- `_getCompletedNodes`: the ids of correctly answered quiz attempts, as the
insertion-ordered de-duplicated list a `Set` plus `Array.from` yields. -/
def getCompletedNodes (userHistory : List Event) : List String :=
  userHistory.foldl
    (fun acc e =>
      if e.type == "QUIZ_ATTEMPT" && e.payload.isCorrect && !acc.contains e.payload.nodeId
      then acc ++ [e.payload.nodeId] else acc)
    []

/-- `_getNextNode`: the first unlocked, not-yet-completed node, `null` when
none. -/
def getNextNode (completedNodes : List String) : Option SkillNode :=
  (getUnlockedNodes completedNodes).head?

/-- The `feedback` part of a completion result. -/
structure Feedback where
  isCorrect : Bool
  message : String
  celebration : Option String := none
deriving DecidableEq, Repr

/-- The structured result `handleLessonCompletion` returns. -/
structure CompletionResult where
  success : Bool
  nextNode : Option SkillNode
  progressUpdate : ProgressV2.UserState2
  achievements : List String := []
  feedback : Feedback
deriving DecidableEq, Repr

/-- The mutable state the orchestration touches: the storage slots and the
session's `_processedSubmissions` set (insertion-ordered list). -/
structure SMState where
  store : Storage.Slots := {}
  processed : List String := []
deriving DecidableEq, Repr

/-- `handleLessonCompletion` of the `SessionManager` class, steps 1–7:
idempotency check (throw `DUPLICATE_SUBMISSION`), answer validation (throws
propagate), the attempt event (payload with correctness and score) recorded
via the Event Recorder, the submission marked processed, progress re-derived
from `getUserHistory` (the live deriver is the later `ProgressService`
revision, `ProgressV2`), next node from the completed set (plus the current
node when correct), the stubbed celebration check, and the structured result.
Storage mutations performed before a later step throws persist, so every
branch returns the state reached so far. -/
def handleLessonCompletion (st : SMState) (fails : List Bool)
    (userId nodeId : String) (attemptData : AttemptData)
    (eventId : String) (timestamp : Nat) :
    Except String CompletionResult × SMState × List Bool :=
  if st.processed.contains attemptData.submissionUuid then
    (.error "DUPLICATE_SUBMISSION", st, fails)
  else
    match validateAnswer nodeId attemptData with
    | .error e => (.error e, st, fails)
    | .ok assessment =>
      let eventPayload : Payload :=
        { nodeId := nodeId,
          questionId := "q_" ++ nodeId,
          submissionUuid := attemptData.submissionUuid,
          userAnswer := attemptData.userAnswer,
          timeSpentMs := attemptData.timeSpentMs,
          hintsUsed := attemptData.hintsUsed,
          isCorrect := assessment.isCorrect,
          scoreAwarded := some assessment.scoreAwarded,
          misconceptionCode := assessment.misconceptionCode }
      match EventMgr.recordEvent st.store fails userId "QUIZ_ATTEMPT" eventPayload
          timestamp eventId with
      | (.error e, store', f') => (.error e, { st with store := store' }, f')
      | (.ok _eventIdOpt, store1, f1) =>
        let processed1 := st.processed ++ [attemptData.submissionUuid]
        match EventMgr.getUserHistory store1 f1 userId with
        | (.error e, store2, f2) => (.error e, { store := store2, processed := processed1 }, f2)
        | (.ok userHistory, store2, f2) =>
          let progressUpdate := ProgressV2.calculateUserState userHistory
          let completedNodes := getCompletedNodes userHistory
          let completedNodes :=
            if assessment.isCorrect then completedNodes ++ [nodeId] else completedNodes
          let nextNode := getNextNode completedNodes
          (.ok { success := true,
                 nextNode := nextNode,
                 progressUpdate := progressUpdate,
                 achievements := [],
                 feedback := { isCorrect := assessment.isCorrect,
                               message := assessment.message,
                               celebration := none } },
           { store := store2, processed := processed1 }, f2)

end Session

deriving instance DecidableEq for Except

/-! Concrete fixtures used by the scenario theorems below. -/

/-- A correct quiz attempt on node `n1` (no explicit score). -/
def evQuizA : Event :=
  { id := "e1", userId := "u1", type := "QUIZ_ATTEMPT",
    payload := { nodeId := "n1", isCorrect := true }, timestamp := 1 }

/-- A correct quiz attempt on node `n2` (no explicit score). -/
def evQuizB : Event :=
  { id := "e2", userId := "u1", type := "QUIZ_ATTEMPT",
    payload := { nodeId := "n2", isCorrect := true }, timestamp := 2 }

/-- A previously persisted video-completion event. -/
def evVideo0 : Event :=
  { id := "e0", userId := "u1", type := "VIDEO_COMPLETE",
    payload := { nodeId := "module_1_intro" }, timestamp := 50 }

/-- A correct multiple-choice attempt on `module_1_quiz`. -/
def attB : Session.AttemptData :=
  { submissionUuid := "uuid-1", userAnswer := .str "B" }

/-- A mid-session orchestrator state: the store holds one committed event with
a stored checksum string, no backup yet, and no processed submissions. -/
def midState : Session.SMState :=
  { store := { events := some [evVideo0], checksum := some "12345" }, processed := [] }

/-- A store whose permanent slot fails its checksum and whose backup pair is
present but carries a checksum that is not the checksum of the backup batch. -/
def corruptBackupStore : Storage.Slots :=
  { events := some [evQuizA], checksum := some "99",
    backup := some [evVideo0], backupChecksum := some "garbage" }

/-- The correct-quiz branch of the V1 fold, as a single conditional. -/
theorem applyEventToState_correct_quiz (st : UserState) (e : Event)
    (hT : e.type = "QUIZ_ATTEMPT") (hC : e.payload.isCorrect = true) :
    ProgressV1.applyEventToState st e =
      (if st.completedNodes.contains e.payload.nodeId then
        { st with
            xp := st.xp + jsOrNat e.payload.xpEarned 10,
            streak := st.streak + 1 }
      else
        { st with
            xp := st.xp + jsOrNat e.payload.xpEarned 10,
            streak := st.streak + 1,
            completedNodes := st.completedNodes ++ [e.payload.nodeId] }) := by
  simp [ProgressV1.applyEventToState, hT, hC]

/-- The video branch of the V1 fold, as a single conditional. -/
theorem applyEventToState_video (st : UserState) (e : Event)
    (hT : e.type = "VIDEO_COMPLETE") :
    ProgressV1.applyEventToState st e =
      (if st.completedNodes.contains e.payload.nodeId then
        { st with xp := st.xp + 5 }
      else
        { st with
            xp := st.xp + 5,
            completedNodes := st.completedNodes ++ [e.payload.nodeId] }) := by
  have h1 : (e.type == "QUIZ_ATTEMPT") = false := by simp [hT]
  simp [ProgressV1.applyEventToState, h1, hT]

set_option maxRecDepth 10000 in
/-- C1: the State Deriver's incremental path is claimed to equal a full
replay; on the code it does not.  After a first call caches the state for
history `[evQuizA]`, a second call on `[evQuizA, evQuizB]` takes the
incremental path but folds only the new event into the *blank* initial state
instead of the cached prior state, returning `xp = 10` with completed set
`[n2]`, while a fresh full replay of the same history returns `xp = 20` with
completed set `[n1, n2]`. -/
theorem C1_incremental_cache_diverges :
    (ProgressV1.calculateUserState {} [evQuizA]).2.cachedVersion = some "e1" ∧
    (ProgressV1.calculateUserState
      (ProgressV1.calculateUserState {} [evQuizA]).2 [evQuizA, evQuizB]).1.xp = 10 ∧
    (ProgressV1.calculateUserState
      (ProgressV1.calculateUserState {} [evQuizA]).2 [evQuizA, evQuizB]).1.completedNodes = ["n2"] ∧
    (ProgressV1.calculateUserState {} [evQuizA, evQuizB]).1.xp = 20 ∧
    (ProgressV1.calculateUserState {} [evQuizA, evQuizB]).1.completedNodes = ["n1", "n2"] ∧
    (ProgressV1.calculateUserState
      (ProgressV1.calculateUserState {} [evQuizA]).2 [evQuizA, evQuizB]).1 ≠
      (ProgressV1.calculateUserState {} [evQuizA, evQuizB]).1 := by
  decide

/-- C2 counterexample: the claim says an incorrect quiz-attempt adds the node
id to the attempted set; on the code the fold returns the state with only the
streak reset and no attempted set is ever written, so at this concrete input
the node id is not in the attempted set. -/
theorem C2_attempted_set_not_written :
    ProgressV1.applyEventToState ProgressV1.initialState
        { type := "QUIZ_ATTEMPT", payload := { nodeId := "n1", isCorrect := false } } =
      ProgressV1.initialState ∧
    "n1" ∉ (ProgressV1.applyEventToState ProgressV1.initialState
        { type := "QUIZ_ATTEMPT", payload := { nodeId := "n1", isCorrect := false } }).attemptedNodes := by
  decide

/-- C2 (amended): folding one event obeys the per-type rules — a correct
quiz-attempt adds the event's score (default 10 when unspecified) to xp,
increments the streak, adds the node id to the completed set idempotently and
leaves the attempted set unchanged; an incorrect quiz-attempt only resets the
streak to 0 (xp, completed set and attempted set unchanged — no attempted set
is maintained, so nothing is added to it); a video-complete adds exactly 5 xp
and adds the node id to the completed set; an unrecognized type leaves the
state unchanged. -/
theorem C2_fold_rules (st : UserState) (e : Event) :
    (e.type = "QUIZ_ATTEMPT" → e.payload.isCorrect = true →
      (ProgressV1.applyEventToState st e).xp = st.xp + jsOrNat e.payload.xpEarned 10 ∧
      (e.payload.xpEarned = none → (ProgressV1.applyEventToState st e).xp = st.xp + 10) ∧
      (ProgressV1.applyEventToState st e).streak = st.streak + 1 ∧
      (∀ y, y ∈ (ProgressV1.applyEventToState st e).completedNodes ↔
        y ∈ st.completedNodes ∨ y = e.payload.nodeId) ∧
      (e.payload.nodeId ∈ st.completedNodes →
        (ProgressV1.applyEventToState st e).completedNodes = st.completedNodes) ∧
      (ProgressV1.applyEventToState st e).attemptedNodes = st.attemptedNodes) ∧
    (e.type = "QUIZ_ATTEMPT" → e.payload.isCorrect = false →
      ProgressV1.applyEventToState st e = { st with streak := 0 }) ∧
    (e.type = "VIDEO_COMPLETE" →
      (ProgressV1.applyEventToState st e).xp = st.xp + 5 ∧
      (∀ y, y ∈ (ProgressV1.applyEventToState st e).completedNodes ↔
        y ∈ st.completedNodes ∨ y = e.payload.nodeId) ∧
      (ProgressV1.applyEventToState st e).streak = st.streak ∧
      (ProgressV1.applyEventToState st e).attemptedNodes = st.attemptedNodes) ∧
    (e.type ≠ "QUIZ_ATTEMPT" → e.type ≠ "VIDEO_COMPLETE" →
      ProgressV1.applyEventToState st e = st) := by
  refine ⟨?_, ?_, ?_, ?_⟩
  · intro hT hC
    rw [applyEventToState_correct_quiz st e hT hC]
    refine ⟨?_, ?_, ?_, ?_, ?_, ?_⟩
    · split <;> simp
    · intro hN; rw [hN]; split <;> simp [jsOrNat]
    · split <;> simp
    · intro y
      split <;> rename_i hmem <;> simp at hmem
      · constructor
        · exact fun h => Or.inl h
        · intro h
          rcases h with h | h
          · exact h
          · rw [h]; exact hmem
      · simp [List.mem_append]
    · intro hmem
      split <;> rename_i hc <;> simp at hc
      · rfl
      · exact absurd hmem hc
    · split <;> simp
  · intro hT hC
    simp [ProgressV1.applyEventToState, hT, hC]
  · intro hT
    rw [applyEventToState_video st e hT]
    refine ⟨?_, ?_, ?_, ?_⟩
    · split <;> simp
    · intro y
      split <;> rename_i hmem <;> simp at hmem
      · constructor
        · exact fun h => Or.inl h
        · intro h
          rcases h with h | h
          · exact h
          · rw [h]; exact hmem
      · simp [List.mem_append]
    · split <;> simp
    · split <;> simp
  · intro hQ hV
    have h1 : (e.type == "QUIZ_ATTEMPT") = false := by simp [hQ]
    have h2 : (e.type == "VIDEO_COMPLETE") = false := by simp [hV]
    simp [ProgressV1.applyEventToState, h1, h2]

/-- C2 witness: the amended fold rules applied to a concrete correct
quiz-attempt on a state that already completed `k`. -/
theorem C2_fold_rules_witness :
    (ProgressV1.applyEventToState
        { xp := 1, completedNodes := ["k"], streak := 2 } evQuizA).attemptedNodes =
      ({ xp := 1, completedNodes := ["k"], streak := 2 } : UserState).attemptedNodes ∧
    (ProgressV1.applyEventToState
        { xp := 1, completedNodes := ["k"], streak := 2 } evQuizA).streak = 2 + 1 := by
  have h := C2_fold_rules { xp := 1, completedNodes := ["k"], streak := 2 } evQuizA
  exact ⟨(h.1 rfl rfl).2.2.2.2.2, (h.1 rfl rfl).2.2.1⟩

/-- C3: every state the (live revision of the) State Deriver returns carries
`level = xp / 100 + 1` and `xpToNextLevel = 100 - xp % 100`, and the empty
history derives to xp 0, streak 0, empty completed set, level 1. -/
theorem C3_derived_level_fields :
    (∀ h : List Event,
      (ProgressV2.calculateUserState h).level = (ProgressV2.calculateUserState h).xp / 100 + 1 ∧
      (ProgressV2.calculateUserState h).xpToNextLevel =
        100 - (ProgressV2.calculateUserState h).xp % 100) ∧
    ProgressV2.calculateUserState [] =
      { xp := 0, completedNodes := [], streak := 0, level := 1, xpToNextLevel := 100 } := by
  constructor
  · intro h
    constructor <;> rfl
  · rfl

/-- C8: for every node id and user state, the visual state is COMPLETED when
the id is in the completed set; otherwise, with the node present, an
unmet-prerequisite count of 0 gives IN_PROGRESS when attempted and
UNLOCKED_NEW when not, a count of exactly 1 gives LOCKED_NEAR, and a count of
2 or more — or an id absent from the graph — gives LOCKED_FAR; in particular
`module_2_excel` with its one prerequisite unmet is LOCKED_NEAR and becomes
UNLOCKED_NEW once `module_1_quiz` is completed. -/
theorem C8_visual_state_rules :
    (∀ (nodeId : String) (us : UserState),
      (nodeId ∈ us.completedNodes → Policy.getVisualState nodeId us = "COMPLETED") ∧
      (nodeId ∉ us.completedNodes → getNode nodeId = none →
        Policy.getVisualState nodeId us = "LOCKED_FAR") ∧
      (∀ node : SkillNode, nodeId ∉ us.completedNodes → getNode nodeId = some node →
        ((node.prerequisites.filter (fun r => r ∉ us.completedNodes)).length = 0 →
          (nodeId ∈ us.attemptedNodes → Policy.getVisualState nodeId us = "IN_PROGRESS") ∧
          (nodeId ∉ us.attemptedNodes → Policy.getVisualState nodeId us = "UNLOCKED_NEW")) ∧
        ((node.prerequisites.filter (fun r => r ∉ us.completedNodes)).length = 1 →
          Policy.getVisualState nodeId us = "LOCKED_NEAR") ∧
        (2 ≤ (node.prerequisites.filter (fun r => r ∉ us.completedNodes)).length →
          Policy.getVisualState nodeId us = "LOCKED_FAR"))) ∧
    Policy.getVisualState "module_2_excel" { completedNodes := [] } = "LOCKED_NEAR" ∧
    Policy.getVisualState "module_2_excel" { completedNodes := ["module_1_quiz"] } =
      "UNLOCKED_NEW" := by
  refine ⟨?_, by decide, by decide⟩
  intro nodeId us
  refine ⟨?_, ?_, ?_⟩
  · intro hmem
    simp [Policy.getVisualState, hmem]
  · intro hmem hN
    simp only [getNode] at hN
    simp [Policy.getVisualState, hmem, hN]
  · intro node hmem hN
    simp only [getNode] at hN
    have memFilter : ∀ a : String,
        a ∈ node.prerequisites.filter (fun r => r ∉ us.completedNodes) ↔
          a ∈ node.prerequisites ∧ a ∉ us.completedNodes := by
      intro a
      rw [List.mem_filter]
      simp
    refine ⟨?_, ?_, ?_⟩
    · intro hL0
      have hnil : node.prerequisites.filter (fun r => r ∉ us.completedNodes) = [] :=
        List.eq_nil_of_length_eq_zero hL0
      have hall : ∀ a ∈ node.prerequisites, a ∈ us.completedNodes := by
        intro a ha
        by_contra hnot
        have : a ∈ node.prerequisites.filter (fun r => r ∉ us.completedNodes) :=
          (memFilter a).mpr ⟨ha, hnot⟩
        rw [hnil] at this
        cases this
      constructor
      · intro ha
        simp [Policy.getVisualState, hmem, hN, hall, ha]
        intro x hx hnx
        exact absurd (hall x hx) hnx
      · intro ha
        simp [Policy.getVisualState, hmem, hN, hall, ha]
        intro x hx hnx
        exact absurd (hall x hx) hnx
    · intro hL1
      have hnall : ¬ ∀ a ∈ node.prerequisites, a ∈ us.completedNodes := by
        intro hall
        have hnil : node.prerequisites.filter (fun r => r ∉ us.completedNodes) = [] := by
          rw [List.filter_eq_nil_iff]
          intro a ha
          simpa using hall a ha
        rw [hnil] at hL1
        simp at hL1
      have hLen : (node.prerequisites.filter
          (fun req => !decide (req ∈ us.completedNodes))).length = 1 := by
        simpa using hL1
      simp [Policy.getVisualState, hmem, hN, hnall, hLen]
    · intro hL2
      have hnall : ¬ ∀ a ∈ node.prerequisites, a ∈ us.completedNodes := by
        intro hall
        have hnil : node.prerequisites.filter (fun r => r ∉ us.completedNodes) = [] := by
          rw [List.filter_eq_nil_iff]
          intro a ha
          simpa using hall a ha
        rw [hnil] at hL2
        simp at hL2
      have hLen : 2 ≤ (node.prerequisites.filter
          (fun req => !decide (req ∈ us.completedNodes))).length := by
        simpa using hL2
      have hne1 : ¬ (node.prerequisites.filter
          (fun req => !decide (req ∈ us.completedNodes))).length = 1 := by
        omega
      simp [Policy.getVisualState, hmem, hN, hnall, hne1]

/-- C8 witness: the rules applied at concrete inputs — a completed node and a
node with one unmet prerequisite. -/
theorem C8_visual_state_rules_witness :
    Policy.getVisualState "module_1_intro" { completedNodes := ["module_1_intro"] } =
      "COMPLETED" ∧
    Policy.getVisualState "module_3_python" { completedNodes := [] } = "LOCKED_NEAR" := by
  constructor
  · exact (C8_visual_state_rules.1 "module_1_intro"
      { completedNodes := ["module_1_intro"] }).1 (by decide)
  · exact ((C8_visual_state_rules.1 "module_3_python" { completedNodes := [] }).2.2
      { id := "module_3_python", prerequisites := ["module_2_excel"], hasQuestion := true,
        question := some { questionType := "text", correctAnswer := .str "def",
                           caseSensitive := true } }
      (by decide) rfl).2.1 (by decide)

/-- C9: with override mode on, `canAccessNode` allows every node id with
reason DEV_OVERRIDE, including ids absent from the graph; with it off, an
absent id gives NODE_NOT_FOUND, and a present node is allowed with
PREREQS_MET exactly when every prerequisite is completed, otherwise denied
with LOCKED_PREREQ_MISSING. -/
theorem C9_can_access_rules :
    (∀ (nodeId : String) (us : UserState),
      Policy.canAccessNode true nodeId us =
        { allowed := true, reason := "DEV_OVERRIDE" }) ∧
    (∀ (nodeId : String) (us : UserState), getNode nodeId = none →
      Policy.canAccessNode false nodeId us =
        { allowed := false, reason := "NODE_NOT_FOUND" }) ∧
    (∀ (nodeId : String) (us : UserState) (node : SkillNode), getNode nodeId = some node →
      ((∀ r ∈ node.prerequisites, r ∈ us.completedNodes) →
        Policy.canAccessNode false nodeId us =
          { allowed := true, reason := "PREREQS_MET" }) ∧
      ((∃ r ∈ node.prerequisites, r ∉ us.completedNodes) →
        Policy.canAccessNode false nodeId us =
          { allowed := false, reason := "LOCKED_PREREQ_MISSING" })) := by
  refine ⟨?_, ?_, ?_⟩
  · intro nodeId us
    rfl
  · intro nodeId us hN
    simp only [getNode] at hN
    simp [Policy.canAccessNode, hN]
  · intro nodeId us node hN
    simp only [getNode] at hN
    constructor
    · intro hall
      simp [Policy.canAccessNode, hN]
      exact hall
    · intro hex
      have hnall : ¬ ∀ r ∈ node.prerequisites, r ∈ us.completedNodes := by
        rcases hex with ⟨r, hr, hnot⟩
        exact fun hall => hnot (hall r hr)
      simp [Policy.canAccessNode, hN, hnall]

/-- C9 witness: override mode allows a nonexistent node id; with override off,
`module_2_excel` is allowed once `module_1_quiz` is completed and denied on an
empty completed set. -/
theorem C9_can_access_rules_witness :
    Policy.canAccessNode true "ghost_node" {} =
      { allowed := true, reason := "DEV_OVERRIDE" } ∧
    Policy.canAccessNode false "module_2_excel" { completedNodes := ["module_1_quiz"] } =
      { allowed := true, reason := "PREREQS_MET" } ∧
    Policy.canAccessNode false "module_2_excel" {} =
      { allowed := false, reason := "LOCKED_PREREQ_MISSING" } := by
  refine ⟨C9_can_access_rules.1 "ghost_node" {}, ?_, ?_⟩
  · exact ((C9_can_access_rules.2.2 "module_2_excel"
      { completedNodes := ["module_1_quiz"] }
      { id := "module_2_excel", prerequisites := ["module_1_quiz"], hasQuestion := true,
        question := some { questionType := "numeric", correctAnswer := .num 30,
                           tolerance := some (1 / 100) } }
      rfl).1 (by decide))
  · exact ((C9_can_access_rules.2.2 "module_2_excel" {}
      { id := "module_2_excel", prerequisites := ["module_1_quiz"], hasQuestion := true,
        question := some { questionType := "numeric", correctAnswer := .num 30,
                           tolerance := some (1 / 100) } }
      rfl).2 ⟨"module_1_quiz", by decide, by decide⟩)

set_option maxRecDepth 100000 in
/-- C4 counterexample: the claim says that when the backup's own checksum is
invalid the read fails with an unrecoverable-corruption error; on the code the
restore only checks that the backup pair is present and never validates the
backup's checksum, so a read over `corruptBackupStore` — whose backup checksum
string is not the checksum of the backup batch — succeeds and returns the
backup batch instead of failing. -/
theorem C4_invalid_backup_checksum_still_restores :
    "garbage" ≠ Storage.natToString (Storage.calculateChecksum [evVideo0]) ∧
    (Storage.getAllEvents corruptBackupStore []).1 = .ok [evVideo0] ∧
    (Storage.getAllEvents corruptBackupStore []).2.1.events = some [evVideo0] := by
  refine ⟨by decide, by decide, by decide⟩

/-- C4 (amended): on read with a stored checksum that fails the comparison,
the Log Store makes exactly one recovery attempt from the single-level backup;
when the backup pair (batch and checksum) is absent it throws the explicit
`CORRUPTION_NO_BACKUP` error rather than returning an empty batch; when the
pair is present the backup becomes the new permanent state and is returned —
without any validation of the backup's own checksum. -/
theorem C4_read_recovery (store : Storage.Slots) (s : String)
    (hs : store.checksum = some s) :
    (∀ (b : List Event) (bc : String),
      store.backup = some b → store.backupChecksum = some bc →
      Storage.getAllEvents store [] =
        (.ok b, { store with events := some b, checksum := some bc }, [])) ∧
    (store.backup = none ∨ store.backupChecksum = none →
      Storage.getAllEvents store [] =
        (.error "CORRUPTION_NO_BACKUP: Critical failure", store, [])) := by
  constructor
  · intro b bc hb hbc
    simp [Storage.getAllEvents, Storage.restoreFromBackup, Storage.setItemF,
      Storage.loadRawData, hs, hb, hbc, jsStrictEq]
  · intro hor
    rcases hor with hb | hbc
    · simp [Storage.getAllEvents, Storage.restoreFromBackup, Storage.setItemF,
        Storage.loadRawData, hs, hb, jsStrictEq]
    · cases hb : store.backup with
      | none =>
        simp [Storage.getAllEvents, Storage.restoreFromBackup, Storage.setItemF,
          Storage.loadRawData, hs, hb, jsStrictEq]
      | some b =>
        simp [Storage.getAllEvents, Storage.restoreFromBackup, Storage.setItemF,
          Storage.loadRawData, hs, hb, hbc, jsStrictEq]

/-- C4 witness: the recovery behavior applied to concrete stores — a
successful restore when the backup pair is present and the explicit error when
it is absent. -/
theorem C4_read_recovery_witness :
    Storage.getAllEvents
        { events := some [evQuizA], checksum := some "7", backup := some [evVideo0],
          backupChecksum := some "8" } [] =
      (.ok [evVideo0],
       { events := some [evVideo0], checksum := some "8", backup := some [evVideo0],
         backupChecksum := some "8" }, []) ∧
    Storage.getAllEvents { events := some [evQuizA], checksum := some "7" } [] =
      (.error "CORRUPTION_NO_BACKUP: Critical failure",
       { events := some [evQuizA], checksum := some "7" }, []) := by
  constructor
  · exact (C4_read_recovery
      { events := some [evQuizA], checksum := some "7", backup := some [evVideo0],
        backupChecksum := some "8" } "7" rfl).1 [evVideo0] "8" rfl rfl
  · exact (C4_read_recovery
      { events := some [evQuizA], checksum := some "7" } "7" rfl).2 (Or.inl rfl)

set_option maxRecDepth 100000 in
/-- C10 (code bug at a concrete input): a successful `saveEvent` on a fresh
consistent store followed by `getAllEvents` does not round-trip.  The save
returns the stamped id and commits the batch and checksum, but the read
strict-compares the stored checksum string against the recomputed number, so
it enters the corruption branch and — with no backup on a first write — throws
`CORRUPTION_NO_BACKUP` instead of returning the one-event batch. -/
theorem C10_read_after_write_enters_corruption_branch :
    (Storage.saveEvent {} [] evQuizA "id1").1 = .ok (some "id1") ∧
    (Storage.saveEvent {} [] evQuizA "id1").2.1.events =
      some [{ evQuizA with id := "id1" }] ∧
    (Storage.saveEvent {} [] evQuizA "id1").2.1.checksum ≠ none ∧
    (Storage.getAllEvents (Storage.saveEvent {} [] evQuizA "id1").2.1 []).1 =
      .error "CORRUPTION_NO_BACKUP: Critical failure" := by
  refine ⟨by decide, by decide, by decide, by decide⟩

set_option maxRecDepth 100000 in
/-- C5 counterexample: the claim says a failed write sequence restores the
pre-write backup, reports failure, and fails with `WriteError` exactly when
both the write and the restore fail.  On a fresh store (no pre-write backup
exists), failing the commit write makes both the write and the restore fail,
yet `saveEvent` returns `null` (`.ok none`) — there is no `WriteError` — and
it leaves a partially-written state: the checksum slot holds the new checksum
while the events slot was never written. -/
theorem C5_no_write_error_and_partial_state :
    (Storage.saveEvent {} [false, false, true] evQuizA "id1").1 = .ok none ∧
    (Storage.saveEvent {} [false, false, true] evQuizA "id1").2.1.events = none ∧
    (Storage.saveEvent {} [false, false, true] evQuizA "id1").2.1.checksum ≠ none := by
  refine ⟨by decide, by decide, by decide⟩

/-- C5 (amended): on a store with a committed batch-and-checksum pair, a
fault-free `saveEvent` snapshots that pair into the backup, commits the new
batch and checksum, clears the staging slot and returns the stamped id; when
any of the three writes of the staging–checksum–commit sequence fails, it
returns `null` (never a distinct `WriteError`) and the permanent batch and
checksum are back at their pre-write values via the backup restore. -/
theorem C5_save_failure_semantics (store : Storage.Slots) (d : List Event) (c : String)
    (hd : store.events = some d) (hc : store.checksum = some c)
    (ev : Event) (eid : String) :
    (Storage.saveEvent store [] ev eid =
      (.ok (some eid),
       { store with
           events := some (d ++ [{ ev with id := eid }]),
           checksum := some (Storage.natToString
             (Storage.calculateChecksum (d ++ [{ ev with id := eid }]))),
           backup := some d, backupChecksum := some c, temp := none }, [])) ∧
    ((Storage.saveEvent store [false, false, true] ev eid).1 = .ok none ∧
     (Storage.saveEvent store [false, false, true] ev eid).2.1.events = some d ∧
     (Storage.saveEvent store [false, false, true] ev eid).2.1.checksum = some c) ∧
    ((Storage.saveEvent store [false, false, false, true] ev eid).1 = .ok none ∧
     (Storage.saveEvent store [false, false, false, true] ev eid).2.1.events = some d ∧
     (Storage.saveEvent store [false, false, false, true] ev eid).2.1.checksum = some c) ∧
    ((Storage.saveEvent store [false, false, false, false, true] ev eid).1 = .ok none ∧
     (Storage.saveEvent store [false, false, false, false, true] ev eid).2.1.events = some d ∧
     (Storage.saveEvent store [false, false, false, false, true] ev eid).2.1.checksum =
       some c) := by
  refine ⟨?_, ⟨?_, ?_, ?_⟩, ⟨?_, ?_, ?_⟩, ⟨?_, ?_, ?_⟩⟩ <;>
    simp [Storage.saveEvent, Storage.createBackup, Storage.restoreFromBackup,
      Storage.setItemF, Storage.loadRawData, hd, hc]

/-- C5 witness: the save semantics applied to a concrete committed store —
the fault-free commit and a commit-write failure that restores the pair. -/
theorem C5_save_failure_semantics_witness :
    Storage.saveEvent { events := some [evVideo0], checksum := some "5" } [] evQuizA "id1" =
      (.ok (some "id1"),
       { events := some ([evVideo0] ++ [{ evQuizA with id := "id1" }]),
         checksum := some (Storage.natToString
           (Storage.calculateChecksum ([evVideo0] ++ [{ evQuizA with id := "id1" }]))),
         backup := some [evVideo0], backupChecksum := some "5", temp := none }, []) ∧
    (Storage.saveEvent { events := some [evVideo0], checksum := some "5" }
        [false, false, true] evQuizA "id1").1 = .ok none ∧
    (Storage.saveEvent { events := some [evVideo0], checksum := some "5" }
        [false, false, true] evQuizA "id1").2.1.events = some [evVideo0] := by
  have h := C5_save_failure_semantics
    { events := some [evVideo0], checksum := some "5" } [evVideo0] "5" rfl rfl evQuizA "id1"
  exact ⟨h.1, h.2.1.1, h.2.1.2.1⟩

set_option maxRecDepth 100000 in
/-- C6 counterexample: the claim says a step-3 storage failure propagates
unchanged and that `handleLessonCompletion` never returns success for an
attempt whose event was not durably recorded.  From `midState` (one committed
event plus its checksum) with the staging write failing, `saveEvent` catches
the error and returns `null`, the recorder and the orchestrator pass on
without checking, and the workflow returns `success := true` while the
permanent batch still holds only the old event — the attempt's event was never
durably recorded and no storage error reached the caller. -/
theorem C6_storage_failure_not_propagated :
    ((Session.handleLessonCompletion midState [false, false, true] "u1" "module_1_quiz"
        attB "id1" 100).1.map (fun r => r.success)) = .ok true ∧
    (Session.handleLessonCompletion midState [false, false, true] "u1" "module_1_quiz"
        attB "id1" 100).2.1.store.events = some [evVideo0] := by
  refine ⟨by decide, by decide⟩

/-- C6 (amended): when the Log Store append fails during step 3 on a store
with a committed batch-and-checksum pair, `saveEvent` swallows the write error
and returns `null`; neither the Event Recorder nor the orchestrator checks it,
the subsequent read restores the pre-write backup, and
`handleLessonCompletion` returns a `success := true` result while the
permanent batch still holds exactly the pre-write events — the attempt's event
is not durably recorded and no storage error reaches the caller. -/
theorem C6_write_failure_swallowed (st : Session.SMState) (d : List Event) (c : String)
    (hd : st.store.events = some d) (hc : st.store.checksum = some c)
    (u n : String) (att : Session.AttemptData) (a : Session.Assessment)
    (hP : att.submissionUuid ∉ st.processed)
    (hV : Session.validateAnswer n att = .ok a)
    (hU : u ≠ "") (eid : String) (ts : Nat) :
    ((Session.handleLessonCompletion st [false, false, true] u n att eid ts).1.map
        (fun r => r.success)) = .ok true ∧
    (Session.handleLessonCompletion st [false, false, true] u n att eid ts).2.1.store.events =
      some d := by
  constructor <;>
    simp [Session.handleLessonCompletion, EventMgr.recordEvent, EventMgr.getUserHistory,
      Storage.saveEvent, Storage.getAllEvents, Storage.createBackup,
      Storage.restoreFromBackup, Storage.setItemF, Storage.loadRawData,
      Except.map, hP, hV, hU, hd, hc, jsStrictEq]

/-- C6 witness: the amended behavior applied at the concrete `midState`
scenario. -/
theorem C6_write_failure_swallowed_witness :
    ((Session.handleLessonCompletion midState [false, false, true] "u1" "module_1_quiz"
        attB "id9" 300).1.map (fun r => r.success)) = .ok true ∧
    (Session.handleLessonCompletion midState [false, false, true] "u1" "module_1_quiz"
        attB "id9" 300).2.1.store.events = some [evVideo0] :=
  C6_write_failure_swallowed midState [evVideo0] "12345" rfl rfl "u1" "module_1_quiz" attB
    { isCorrect := true, scoreAwarded := 10, message := "Correct! Well done.",
      misconceptionCode := none }
    (by decide) (by decide) (by decide) "id9" 300

set_option maxRecDepth 100000 in
/-- C7 (code bug at a concrete input): from `midState` (a mid-session store
with a committed batch and checksum), calling `handleLessonCompletion` twice
with the same submission id does not record exactly one event — it records
none.  The first call appends the attempt event, but its step-4 read enters
the (type-broken) corruption branch and restores the pre-write backup, erasing
the new event, and still returns `success := true`; the second call does fail
with `DUPLICATE_SUBMISSION` before recording anything and leaves the state
unchanged. -/
theorem C7_duplicate_submission_but_event_lost :
    ((Session.handleLessonCompletion midState [] "u1" "module_1_quiz" attB "id1" 100).1.map
        (fun r => r.success)) = .ok true ∧
    (Session.handleLessonCompletion midState [] "u1" "module_1_quiz" attB "id1"
        100).2.1.store.events = some [evVideo0] ∧
    (Session.handleLessonCompletion midState [] "u1" "module_1_quiz" attB "id1"
        100).2.1.processed = ["uuid-1"] ∧
    (Session.handleLessonCompletion
        (Session.handleLessonCompletion midState [] "u1" "module_1_quiz" attB "id1" 100).2.1
        [] "u1" "module_1_quiz" attB "id2" 200).1 = .error "DUPLICATE_SUBMISSION" ∧
    (Session.handleLessonCompletion
        (Session.handleLessonCompletion midState [] "u1" "module_1_quiz" attB "id1" 100).2.1
        [] "u1" "module_1_quiz" attB "id2" 200).2.1 =
      (Session.handleLessonCompletion midState [] "u1" "module_1_quiz" attB "id1"
        100).2.1 := by
  refine ⟨by decide, by decide, by decide, by decide, by decide⟩
